import Mathlib

/-!
Shallow embedding of src/examples/viper-duel/server/src/utils/validators.js.

JavaScript runtime values are modelled by the inductive type JSValue; numbers
are modelled by JSNum, which keeps the distinctions that matter to the source
(NaN and negative zero are separate points, every other number is a rational,
which is exact for all the literals the source compares against).  Property
access, truthiness, typeof, strict equality and Array.prototype.includes
(SameValueZero) are modelled explicitly, and each exported function of the
source file is translated line by line.
-/

/-- Model of a JavaScript number: NaN, negative zero, or an exact value. -/
inductive JSNum where
  | nan : JSNum
  | negZero : JSNum
  | num : ℚ → JSNum
deriving DecidableEq, Repr

/-- Model of a JavaScript runtime value, rich enough for validators.js:
undefined, null, booleans, numbers, strings and plain objects
(association lists of fields). -/
inductive JSValue where
  | undef : JSValue
  | null : JSValue
  | bool : Bool → JSValue
  | num : JSNum → JSValue
  | str : String → JSValue
  | obj : List (String × JSValue) → JSValue

/-- JavaScript truthiness: undefined, null, false, ±0, NaN and "" are falsy. -/
def truthy : JSValue → Bool
  | JSValue.undef => false
  | JSValue.null => false
  | JSValue.bool b => b
  | JSValue.num JSNum.nan => false
  | JSValue.num JSNum.negZero => false
  | JSValue.num (JSNum.num q) => q != 0
  | JSValue.str s => s != ""
  | JSValue.obj _ => true

/-- The JavaScript typeof operator (note typeof null is "object"). -/
def jsTypeof : JSValue → String
  | JSValue.undef => "undefined"
  | JSValue.null => "object"
  | JSValue.bool _ => "boolean"
  | JSValue.num _ => "number"
  | JSValue.str _ => "string"
  | JSValue.obj _ => "object"

/-- Whether a value is the undefined sentinel (models v === undefined). -/
def isUndef : JSValue → Bool
  | JSValue.undef => true
  | _ => false

/-- Whether a value is an object (the only truthy values of typeof "object"). -/
def isObject : JSValue → Bool
  | JSValue.obj _ => true
  | _ => false

/-- Property access p.k on an object; missing fields read as undefined. -/
def jsGet (v : JSValue) (k : String) : JSValue :=
  match v with
  | JSValue.obj fields => (fields.lookup k).getD JSValue.undef
  | _ => JSValue.undef

/-- The JavaScript a || b operator: a when truthy, otherwise b. -/
def jsOr (a b : JSValue) : JSValue :=
  if truthy a then a else b

/-- SameValueZero on numbers, the comparison used by Array.prototype.includes:
NaN equals NaN, and -0 equals +0. -/
def sameValueZero : JSNum → JSNum → Bool
  | JSNum.nan, JSNum.nan => true
  | JSNum.negZero, JSNum.negZero => true
  | JSNum.negZero, JSNum.num q => q == 0
  | JSNum.num q, JSNum.negZero => q == 0
  | JSNum.num a, JSNum.num b => a == b
  | _, _ => false

/-- Strict equality (===) on numbers: NaN equals nothing, -0 equals +0. -/
def strictEqNum : JSNum → JSNum → Bool
  | JSNum.nan, _ => false
  | _, JSNum.nan => false
  | JSNum.negZero, JSNum.negZero => true
  | JSNum.negZero, JSNum.num q => q == 0
  | JSNum.num q, JSNum.negZero => q == 0
  | JSNum.num a, JSNum.num b => a == b

/-- A hexadecimal digit, case-insensitively: the character class [0-9a-f]
of the source regexes under the i flag (and [a-fA-F0-9] without it). -/
def isHexCharCI (c : Char) : Bool :=
  c.isDigit || ('a' ≤ c && c ≤ 'f') || ('A' ≤ c && c ≤ 'F')

/-- The character class [89ab] under the i flag of the room-id regex. -/
def isVariantCharCI (c : Char) : Bool :=
  c == '8' || c == '9' || c == 'a' || c == 'b' || c == 'A' || c == 'B'

/-- Consume exactly n hex characters from the front of the list, returning
the remainder; models the regex fragment [0-9a-f]{n}. -/
def hexRun : Nat → List Char → Option (List Char)
  | 0, cs => some cs
  | _ + 1, [] => none
  | n + 1, c :: cs => if isHexCharCI c then hexRun n cs else none

/-- Consume one fixed literal character, as a literal in a regex does. -/
def matchToken (t : Char) : List Char → Option (List Char)
  | c :: cs => if c == t then some cs else none
  | [] => none

/-- Consume one character of the class [89ab] (with the i flag). -/
def matchVariant : List Char → Option (List Char)
  | c :: cs => if isVariantCharCI c then some cs else none
  | [] => none

/-- The end anchor $: the whole input must have been consumed. -/
def matchEnd : Option (List Char) → Bool
  | some [] => true
  | _ => false

/-- Matcher for the anchored regex ^0x[a-fA-F0-9]{40}$ of
isValidEthereumAddress. -/
def ethAddrMatch (cs : List Char) : Bool :=
  matchEnd (((matchToken '0' cs).bind (matchToken 'x')).bind (hexRun 40))

/-- Matcher for the anchored regex
^[0-9a-f]\x7b8\x7d-[0-9a-f]\x7b4\x7d-4[0-9a-f]\x7b3\x7d-[89ab][0-9a-f]\x7b3\x7d-[0-9a-f]\x7b12\x7d$
with the i flag, used by isValidRoomId: eight hex, a hyphen, four hex, a
hyphen, the literal version nibble 4, three hex, a hyphen, one variant
character, three hex, a hyphen, twelve hex, end of input. -/
def uuidV4Match (cs : List Char) : Bool :=
  matchEnd (((((((((((hexRun 8 cs).bind
    (matchToken '-')).bind
    (hexRun 4)).bind
    (matchToken '-')).bind
    (matchToken '4')).bind
    (hexRun 3)).bind
    (matchToken '-')).bind
    matchVariant).bind
    (hexRun 3)).bind
    (matchToken '-')).bind
    (hexRun 12))

/-- Translation of isValidEthereumAddress: a string matching
^0x[a-fA-F0-9]{40}$. -/
def isValidEthereumAddress (address : JSValue) : Bool :=
  match address with
  | JSValue.str s => ethAddrMatch s.data
  | _ => false

/-- Translation of isValidRoomId: a string matching the UUID v4 regex. -/
def isValidRoomId (roomId : JSValue) : Bool :=
  match roomId with
  | JSValue.str s => uuidV4Match s.data
  | _ => false

/-- Translation of isValidDirection: a string included in
["UP", "DOWN", "LEFT", "RIGHT"]. -/
def isValidDirection (direction : JSValue) : Bool :=
  match direction with
  | JSValue.str s => ["UP", "DOWN", "LEFT", "RIGHT"].contains s
  | _ => false

/-- The validAmounts array of isValidBetAmount: [0, 0.01, 0.1, 1, 2]. -/
def validAmounts : List JSNum :=
  [JSNum.num 0, JSNum.num (1 / 100), JSNum.num (1 / 10), JSNum.num 1, JSNum.num 2]

/-- Translation of isValidBetAmount: a number included (SameValueZero) in
validAmounts. -/
def isValidBetAmount (betAmount : JSValue) : Bool :=
  match betAmount with
  | JSValue.num n => validAmounts.any (fun a => sameValueZero a n)
  | _ => false

/-- The result records returned by the composite validators: success flag,
optional error message, optional isCreating and isJoining flags. -/
structure ValidationResult where
  success : Bool
  error : Option String
  isCreating : Option Bool
  isJoining : Option Bool
deriving DecidableEq, Repr

/-- Translation of validateJoinRoomPayload, branch for branch. -/
def validateJoinRoomPayload (payload : JSValue) : ValidationResult :=
  if !truthy payload || jsTypeof payload != "object" then
    ⟨false, some "Invalid payload format", none, none⟩
  else if !truthy (jsGet payload "eoa") then
    ⟨false, some "Ethereum address is required", none, none⟩
  else if !isValidEthereumAddress (jsGet payload "eoa") then
    ⟨false, some "Invalid Ethereum address format", none, none⟩
  else if !isUndef (jsGet payload "betAmount")
      && !isValidBetAmount (jsGet payload "betAmount") then
    ⟨false, some "Invalid bet amount. Must be 0, 0.01, 0.1, 1, or 2", none, none⟩
  else if isUndef (jsGet payload "roomId") then
    ⟨true, none, some true, none⟩
  else if !isValidRoomId (jsGet payload "roomId") then
    ⟨false, some "Invalid room ID format", none, none⟩
  else
    ⟨true, none, none, some true⟩

/-- Translation of validateDirectionPayload, branch for branch. -/
def validateDirectionPayload (payload : JSValue) : ValidationResult :=
  if !truthy payload || jsTypeof payload != "object" then
    ⟨false, some "Invalid payload format", none, none⟩
  else if !truthy (jsGet payload "roomId") then
    ⟨false, some "Room ID is required", none, none⟩
  else if !isValidRoomId (jsGet payload "roomId") then
    ⟨false, some "Invalid room ID format", none, none⟩
  else if !truthy (jsGet payload "direction") then
    ⟨false, some "Direction is required", none, none⟩
  else if !isValidDirection (jsGet payload "direction") then
    ⟨false, some "Invalid direction format (must be UP, DOWN, LEFT, or RIGHT)", none, none⟩
  else
    ⟨true, none, none, none⟩

/-- A console.log line emitted by validateJoinRoomPayload on a success path,
with the values the source interpolates. -/
inductive LogEntry where
  | createRoom (betAmount : JSValue)
  | joinRoom (roomId betAmount : JSValue)

/-- validateJoinRoomPayload with its console.log side effect made explicit:
the call appends its log lines to the ambient log and returns the result. -/
def validateJoinRoomPayloadLogged (log : List LogEntry) (payload : JSValue) :
    ValidationResult × List LogEntry :=
  if !truthy payload || jsTypeof payload != "object" then
    (⟨false, some "Invalid payload format", none, none⟩, log)
  else if !truthy (jsGet payload "eoa") then
    (⟨false, some "Ethereum address is required", none, none⟩, log)
  else if !isValidEthereumAddress (jsGet payload "eoa") then
    (⟨false, some "Invalid Ethereum address format", none, none⟩, log)
  else if !isUndef (jsGet payload "betAmount")
      && !isValidBetAmount (jsGet payload "betAmount") then
    (⟨false, some "Invalid bet amount. Must be 0, 0.01, 0.1, 1, or 2", none, none⟩, log)
  else if isUndef (jsGet payload "roomId") then
    (⟨true, none, some true, none⟩,
      log ++ [LogEntry.createRoom (jsOr (jsGet payload "betAmount") (JSValue.num (JSNum.num 0)))])
  else if !isValidRoomId (jsGet payload "roomId") then
    (⟨false, some "Invalid room ID format", none, none⟩, log)
  else
    (⟨true, none, none, some true⟩,
      log ++ [LogEntry.joinRoom (jsGet payload "roomId")
        (jsOr (jsGet payload "betAmount") (JSValue.num (JSNum.num 0)))])

/-- validateDirectionPayload with the (empty) logging effect made explicit:
the source emits no log line on any branch. -/
def validateDirectionPayloadLogged (log : List LogEntry) (payload : JSValue) :
    ValidationResult × List LogEntry :=
  (validateDirectionPayload payload, log)

/-- The error messages validateJoinRoomPayload can return. -/
def joinRoomErrors : List String :=
  ["Invalid payload format", "Ethereum address is required",
   "Invalid Ethereum address format",
   "Invalid bet amount. Must be 0, 0.01, 0.1, 1, or 2",
   "Invalid room ID format"]

/-- The error messages validateDirectionPayload can return. -/
def directionErrors : List String :=
  ["Invalid payload format", "Room ID is required", "Invalid room ID format",
   "Direction is required",
   "Invalid direction format (must be UP, DOWN, LEFT, or RIGHT)"]

/-- The object-shape test of both composite validators accepts exactly the
object values of the model. -/
theorem objectCheck_eq (p : JSValue) :
    (!truthy p || jsTypeof p != "object") = !isObject p := by
  cases p <;> simp [truthy, jsTypeof, isObject]

/-- C1: validateJoinRoomPayload evaluates its checks in the spec order with
short-circuit on the first failure: non-object payloads fail with
"Invalid payload format"; else a falsy eoa fails with
"Ethereum address is required"; else an invalid eoa fails with
"Invalid Ethereum address format"; else a present-but-invalid betAmount fails
with the bet-amount message; else an undefined roomId succeeds creating; else
an invalid roomId fails with "Invalid room ID format"; else it succeeds
joining.  An invalid eoa together with a valid roomId reports the address
error (address checked before room id). -/
theorem validateJoinRoomPayload_strict_order (p : JSValue) :
    (isObject p = false →
      validateJoinRoomPayload p = ⟨false, some "Invalid payload format", none, none⟩) ∧
    (isObject p = true → truthy (jsGet p "eoa") = false →
      validateJoinRoomPayload p = ⟨false, some "Ethereum address is required", none, none⟩) ∧
    (isObject p = true → truthy (jsGet p "eoa") = true →
      isValidEthereumAddress (jsGet p "eoa") = false →
      validateJoinRoomPayload p = ⟨false, some "Invalid Ethereum address format", none, none⟩) ∧
    (isObject p = true → truthy (jsGet p "eoa") = true →
      isValidEthereumAddress (jsGet p "eoa") = true →
      isUndef (jsGet p "betAmount") = false →
      isValidBetAmount (jsGet p "betAmount") = false →
      validateJoinRoomPayload p =
        ⟨false, some "Invalid bet amount. Must be 0, 0.01, 0.1, 1, or 2", none, none⟩) ∧
    (isObject p = true → truthy (jsGet p "eoa") = true →
      isValidEthereumAddress (jsGet p "eoa") = true →
      (isUndef (jsGet p "betAmount") = true ∨ isValidBetAmount (jsGet p "betAmount") = true) →
      isUndef (jsGet p "roomId") = true →
      validateJoinRoomPayload p = ⟨true, none, some true, none⟩) ∧
    (isObject p = true → truthy (jsGet p "eoa") = true →
      isValidEthereumAddress (jsGet p "eoa") = true →
      (isUndef (jsGet p "betAmount") = true ∨ isValidBetAmount (jsGet p "betAmount") = true) →
      isUndef (jsGet p "roomId") = false →
      isValidRoomId (jsGet p "roomId") = false →
      validateJoinRoomPayload p = ⟨false, some "Invalid room ID format", none, none⟩) ∧
    (isObject p = true → truthy (jsGet p "eoa") = true →
      isValidEthereumAddress (jsGet p "eoa") = true →
      (isUndef (jsGet p "betAmount") = true ∨ isValidBetAmount (jsGet p "betAmount") = true) →
      isUndef (jsGet p "roomId") = false →
      isValidRoomId (jsGet p "roomId") = true →
      validateJoinRoomPayload p = ⟨true, none, none, some true⟩) ∧
    validateJoinRoomPayload
      (JSValue.obj [("eoa", JSValue.str "bad"),
        ("roomId", JSValue.str "123e4567-e89b-42d3-a456-426614174000")]) =
      ⟨false, some "Invalid Ethereum address format", none, none⟩ := by
  refine ⟨?_, ?_, ?_, ?_, ?_, ?_, ?_, by decide⟩
  · intro h
    simp [validateJoinRoomPayload, objectCheck_eq, h]
  · intro h1 h2
    simp [validateJoinRoomPayload, objectCheck_eq, h1, h2]
  · intro h1 h2 h3
    simp [validateJoinRoomPayload, objectCheck_eq, h1, h2, h3]
  · intro h1 h2 h3 h4 h5
    simp [validateJoinRoomPayload, objectCheck_eq, h1, h2, h3, h4, h5]
  · intro h1 h2 h3 h4 h5
    rcases h4 with h4 | h4 <;>
      simp [validateJoinRoomPayload, objectCheck_eq, h1, h2, h3, h4, h5]
  · intro h1 h2 h3 h4 h5 h6
    rcases h4 with h4 | h4 <;>
      simp [validateJoinRoomPayload, objectCheck_eq, h1, h2, h3, h4, h5, h6]
  · intro h1 h2 h3 h4 h5 h6
    rcases h4 with h4 | h4 <;>
      simp [validateJoinRoomPayload, objectCheck_eq, h1, h2, h3, h4, h5, h6]

/-- Witness for C1: the first clause applied to the non-object payload null. -/
theorem validateJoinRoomPayload_strict_order_witness :
    isObject JSValue.null = false ∧
      validateJoinRoomPayload JSValue.null = ⟨false, some "Invalid payload format", none, none⟩ :=
  ⟨rfl, (validateJoinRoomPayload_strict_order JSValue.null).1 rfl⟩

/-- C2: validateDirectionPayload evaluates its checks in strict order with
short-circuit: non-object payloads fail with "Invalid payload format"; else a
falsy roomId fails with "Room ID is required"; else an invalid roomId fails
with "Invalid room ID format"; else a falsy direction fails with
"Direction is required"; else an invalid direction fails with the
direction-format message; otherwise it returns exactly success with no extra
flags.  A valid roomId with direction "SIDEWAYS" reports the
direction-format error. -/
theorem validateDirectionPayload_strict_order (p : JSValue) :
    (isObject p = false →
      validateDirectionPayload p = ⟨false, some "Invalid payload format", none, none⟩) ∧
    (isObject p = true → truthy (jsGet p "roomId") = false →
      validateDirectionPayload p = ⟨false, some "Room ID is required", none, none⟩) ∧
    (isObject p = true → truthy (jsGet p "roomId") = true →
      isValidRoomId (jsGet p "roomId") = false →
      validateDirectionPayload p = ⟨false, some "Invalid room ID format", none, none⟩) ∧
    (isObject p = true → truthy (jsGet p "roomId") = true →
      isValidRoomId (jsGet p "roomId") = true →
      truthy (jsGet p "direction") = false →
      validateDirectionPayload p = ⟨false, some "Direction is required", none, none⟩) ∧
    (isObject p = true → truthy (jsGet p "roomId") = true →
      isValidRoomId (jsGet p "roomId") = true →
      truthy (jsGet p "direction") = true →
      isValidDirection (jsGet p "direction") = false →
      validateDirectionPayload p =
        ⟨false, some "Invalid direction format (must be UP, DOWN, LEFT, or RIGHT)", none, none⟩) ∧
    (isObject p = true → truthy (jsGet p "roomId") = true →
      isValidRoomId (jsGet p "roomId") = true →
      truthy (jsGet p "direction") = true →
      isValidDirection (jsGet p "direction") = true →
      validateDirectionPayload p = ⟨true, none, none, none⟩) ∧
    validateDirectionPayload
      (JSValue.obj [("roomId", JSValue.str "123e4567-e89b-42d3-a456-426614174000"),
        ("direction", JSValue.str "SIDEWAYS")]) =
      ⟨false, some "Invalid direction format (must be UP, DOWN, LEFT, or RIGHT)", none, none⟩ := by
  refine ⟨?_, ?_, ?_, ?_, ?_, ?_, by decide⟩
  · intro h
    simp [validateDirectionPayload, objectCheck_eq, h]
  · intro h1 h2
    simp [validateDirectionPayload, objectCheck_eq, h1, h2]
  · intro h1 h2 h3
    simp [validateDirectionPayload, objectCheck_eq, h1, h2, h3]
  · intro h1 h2 h3 h4
    simp [validateDirectionPayload, objectCheck_eq, h1, h2, h3, h4]
  · intro h1 h2 h3 h4 h5
    simp [validateDirectionPayload, objectCheck_eq, h1, h2, h3, h4, h5]
  · intro h1 h2 h3 h4 h5
    simp [validateDirectionPayload, objectCheck_eq, h1, h2, h3, h4, h5]

/-- Witness for C2: the first clause applied to the non-object payload 0. -/
theorem validateDirectionPayload_strict_order_witness :
    isObject (JSValue.num (JSNum.num 0)) = false ∧
      validateDirectionPayload (JSValue.num (JSNum.num 0)) =
        ⟨false, some "Invalid payload format", none, none⟩ :=
  ⟨rfl, (validateDirectionPayload_strict_order (JSValue.num (JSNum.num 0))).1 rfl⟩

/-- hexRun n consumes exactly a length-n prefix of hex characters. -/
theorem hexRun_eq_some (n : Nat) (cs rest : List Char) :
    hexRun n cs = some rest ↔
      ∃ g, cs = g ++ rest ∧ g.length = n ∧ ∀ c ∈ g, isHexCharCI c = true := by
  induction n generalizing cs with
  | zero =>
    simp only [hexRun, Option.some.injEq]
    constructor
    · rintro rfl
      exact ⟨[], rfl, rfl, by simp⟩
    · rintro ⟨g, rfl, hlen, -⟩
      rw [List.length_eq_zero] at hlen
      subst hlen
      rfl
  | succ n ih =>
    cases cs with
    | nil =>
      constructor
      · intro h
        exact absurd h (by simp [hexRun])
      · rintro ⟨g, hg, hlen, -⟩
        have hlg := congrArg List.length hg
        simp [hlen] at hlg
        omega
    | cons c cs =>
      by_cases hc : isHexCharCI c = true
      · rw [show hexRun (n + 1) (c :: cs) = hexRun n cs from by simp [hexRun, hc], ih]
        constructor
        · rintro ⟨g, rfl, hlen, hall⟩
          refine ⟨c :: g, rfl, by simp [hlen], ?_⟩
          intro d hd
          rcases List.mem_cons.mp hd with rfl | hd
          · exact hc
          · exact hall d hd
        · rintro ⟨g, hg, hlen, hall⟩
          cases g with
          | nil => simp at hlen
          | cons d g =>
            injection hg with h1 h2
            subst h1
            refine ⟨g, h2, by simpa using hlen, ?_⟩
            intro e he
            exact hall e (List.mem_cons_of_mem _ he)
      · rw [show hexRun (n + 1) (c :: cs) = none from by simp [hexRun, hc]]
        constructor
        · intro h
          exact absurd h (by simp)
        · rintro ⟨g, hg, hlen, hall⟩
          cases g with
          | nil => simp at hlen
          | cons d g =>
            injection hg with h1 h2
            subst h1
            exact absurd (hall c (List.mem_cons_self c g)) hc

/-- matchToken t consumes exactly the literal character t. -/
theorem matchToken_eq_some (t : Char) (cs rest : List Char) :
    matchToken t cs = some rest ↔ cs = t :: rest := by
  cases cs with
  | nil => simp [matchToken]
  | cons c cs =>
    by_cases hc : c = t
    · subst hc
      simp [matchToken]
    · simp [matchToken, hc]

/-- matchVariant consumes exactly one variant-class character. -/
theorem matchVariant_eq_some (cs rest : List Char) :
    matchVariant cs = some rest ↔
      ∃ c, cs = c :: rest ∧ isVariantCharCI c = true := by
  cases cs with
  | nil => simp [matchVariant]
  | cons c cs =>
    by_cases hc : isVariantCharCI c = true
    · rw [show matchVariant (c :: cs) = some cs from by simp [matchVariant, hc]]
      constructor
      · intro h
        injection h with h
        subst h
        exact ⟨c, rfl, hc⟩
      · rintro ⟨c1, heq, hvr⟩
        injection heq with h1 h2
        rw [h2]
    · rw [show matchVariant (c :: cs) = none from by simp [matchVariant, hc]]
      constructor
      · intro h
        exact absurd h (by simp)
      · rintro ⟨c1, heq, hvr⟩
        injection heq with h1 h2
        subst h1
        exact absurd hvr hc

/-- matchEnd accepts exactly a successful match with no input left. -/
theorem matchEnd_eq_true (o : Option (List Char)) :
    matchEnd o = true ↔ o = some [] := by
  cases o with
  | none => simp [matchEnd]
  | some l =>
    cases l with
    | nil => simp [matchEnd]
    | cons c cs => simp [matchEnd]

/-- The Ethereum-address matcher accepts exactly the strings 0x followed by
forty hexadecimal characters. -/
theorem ethAddrMatch_iff (cs : List Char) :
    ethAddrMatch cs = true ↔
      ∃ rest, cs = '0' :: 'x' :: rest ∧ rest.length = 40 ∧
        ∀ c ∈ rest, isHexCharCI c = true := by
  simp only [ethAddrMatch, matchEnd_eq_true, Option.bind_eq_some, matchToken_eq_some,
    hexRun_eq_some]
  constructor
  · rintro ⟨a, ⟨b, hb, rfl⟩, g, rfl, hlen, hall⟩
    exact ⟨g, by simpa using hb, hlen, hall⟩
  · rintro ⟨rest, rfl, hlen, hall⟩
    exact ⟨rest, ⟨'x' :: rest, rfl, rfl⟩, rest, by simp, hlen, hall⟩

/-- The UUID matcher accepts exactly the 8-4-4-4-12 hyphenated hex shapes
whose version nibble is 4 and whose variant nibble is in the class [89ab]
(case-insensitively). -/
theorem uuidV4Match_iff (cs : List Char) :
    uuidV4Match cs = true ↔
      ∃ (g1 g2 t3 : List Char) (vr : Char) (t4 g5 : List Char),
        cs = g1 ++ '-' :: (g2 ++ '-' :: '4' :: (t3 ++ '-' :: vr :: (t4 ++ '-' :: g5))) ∧
        g1.length = 8 ∧ (∀ c ∈ g1, isHexCharCI c = true) ∧
        g2.length = 4 ∧ (∀ c ∈ g2, isHexCharCI c = true) ∧
        t3.length = 3 ∧ (∀ c ∈ t3, isHexCharCI c = true) ∧
        isVariantCharCI vr = true ∧
        t4.length = 3 ∧ (∀ c ∈ t4, isHexCharCI c = true) ∧
        g5.length = 12 ∧ (∀ c ∈ g5, isHexCharCI c = true) := by
  simp only [uuidV4Match, matchEnd_eq_true, Option.bind_eq_some, matchToken_eq_some,
    matchVariant_eq_some, hexRun_eq_some, List.append_nil]
  constructor
  · intro h
    obtain ⟨a10, h, h12⟩ := h
    obtain ⟨a9, h, rfl⟩ := h
    obtain ⟨a8, h, h3b⟩ := h
    obtain ⟨t4, rfl, hl4, hh4⟩ := h3b
    obtain ⟨a7, h, hv⟩ := h
    obtain ⟨vr, rfl, hvr⟩ := hv
    obtain ⟨a6, h, rfl⟩ := h
    obtain ⟨a5, h, h3a⟩ := h
    obtain ⟨t3, rfl, hl3, hh3⟩ := h3a
    obtain ⟨a4, h, rfl⟩ := h
    obtain ⟨a3, h, rfl⟩ := h
    obtain ⟨a2, h, h4⟩ := h
    obtain ⟨g2, rfl, hl2, hh2⟩ := h4
    obtain ⟨a1, h, rfl⟩ := h
    obtain ⟨g1, rfl, hl1, hh1⟩ := h
    obtain ⟨g5, rfl, hl5, hh5⟩ := h12
    exact ⟨g1, g2, t3, vr, t4, a10, rfl, hl1, hh1, hl2, hh2, hl3, hh3, hvr,
      hl4, hh4, hl5, hh5⟩
  · rintro ⟨g1, g2, t3, vr, t4, g5, rfl, hl1, hh1, hl2, hh2, hl3, hh3, hvr,
      hl4, hh4, hl5, hh5⟩
    exact ⟨_, ⟨_, ⟨_, ⟨_, ⟨_, ⟨_, ⟨_, ⟨_, ⟨_, ⟨_, ⟨g1, rfl, hl1, hh1⟩, rfl⟩,
      ⟨g2, rfl, hl2, hh2⟩⟩, rfl⟩, rfl⟩, ⟨t3, rfl, hl3, hh3⟩⟩, rfl⟩,
      ⟨vr, rfl, hvr⟩⟩, ⟨t4, rfl, hl4, hh4⟩⟩, rfl⟩, ⟨g5, rfl, hl5, hh5⟩⟩

/-- C3: isValidEthereumAddress returns true exactly on the string values of
the form 0x followed by forty case-insensitive hexadecimal characters (the
regex of the source), and false on every other value, including non-strings
such as a number. -/
theorem isValidEthereumAddress_spec :
    (∀ v, isValidEthereumAddress v = true ↔
      ∃ s rest, v = JSValue.str s ∧ s.data = '0' :: 'x' :: rest ∧
        rest.length = 40 ∧ ∀ c ∈ rest, isHexCharCI c = true) ∧
    isValidEthereumAddress (JSValue.str ("0x" ++ String.mk (List.replicate 40 'a'))) = true ∧
    isValidEthereumAddress (JSValue.str "0xabc") = false ∧
    isValidEthereumAddress (JSValue.num (JSNum.num 123)) = false := by
  refine ⟨?_, by decide, by decide, rfl⟩
  intro v
  cases v <;> simp [isValidEthereumAddress, ethAddrMatch_iff]

/-- Witness for C3: a concrete 42-character address accepted through the
characterization. -/
theorem isValidEthereumAddress_spec_witness :
    isValidEthereumAddress (JSValue.str "0x0123456789abcdefABCDEF0123456789abcdefAB") = true :=
  (isValidEthereumAddress_spec.1 _).mpr
    ⟨"0x0123456789abcdefABCDEF0123456789abcdefAB",
     "0123456789abcdefABCDEF0123456789abcdefAB".data, rfl, by decide, by decide, by decide⟩

/-- C4: isValidRoomId returns true exactly on the string values in UUID v4
textual form (five hyphenated hex groups of lengths 8-4-4-4-12, version
nibble 4, variant nibble in [89ab] case-insensitively) and false on every
non-string input; the example UUID is accepted and the same string with
version nibble 1 is rejected. -/
theorem isValidRoomId_spec :
    (∀ v, isValidRoomId v = true ↔
      ∃ (s : String) (g1 g2 t3 : List Char) (vr : Char) (t4 g5 : List Char),
        v = JSValue.str s ∧
        s.data = g1 ++ '-' :: (g2 ++ '-' :: '4' :: (t3 ++ '-' :: vr :: (t4 ++ '-' :: g5))) ∧
        g1.length = 8 ∧ (∀ c ∈ g1, isHexCharCI c = true) ∧
        g2.length = 4 ∧ (∀ c ∈ g2, isHexCharCI c = true) ∧
        t3.length = 3 ∧ (∀ c ∈ t3, isHexCharCI c = true) ∧
        isVariantCharCI vr = true ∧
        t4.length = 3 ∧ (∀ c ∈ t4, isHexCharCI c = true) ∧
        g5.length = 12 ∧ (∀ c ∈ g5, isHexCharCI c = true)) ∧
    isValidRoomId (JSValue.str "123e4567-e89b-42d3-a456-426614174000") = true ∧
    isValidRoomId (JSValue.str "123e4567-e89b-12d3-a456-426614174000") = false ∧
    isValidRoomId (JSValue.num (JSNum.num 5)) = false ∧
    isValidRoomId JSValue.null = false := by
  refine ⟨?_, by decide, by decide, rfl, rfl⟩
  intro v
  cases v <;> simp [isValidRoomId, uuidV4Match_iff]

/-- Witness for C4: the example UUID accepted through the characterization,
with its five groups given explicitly. -/
theorem isValidRoomId_spec_witness :
    isValidRoomId (JSValue.str "123e4567-e89b-42d3-a456-426614174000") = true :=
  (isValidRoomId_spec.1 _).mpr
    ⟨"123e4567-e89b-42d3-a456-426614174000", "123e4567".data, "e89b".data, "2d3".data, 'a',
     "456".data, "426614174000".data, rfl, by decide, by decide, by decide, by decide,
     by decide, by decide, by decide, by decide, by decide, by decide, by decide, by decide⟩

/-- The SameValueZero membership test of isValidBetAmount on a number,
written out: negative zero or one of the five exact rationals. -/
theorem isValidBetAmount_num_iff (n : JSNum) :
    isValidBetAmount (JSValue.num n) = true ↔
      n = JSNum.negZero ∨ ∃ q : ℚ, n = JSNum.num q ∧
        (q = 0 ∨ q = 1 / 100 ∨ q = 1 / 10 ∨ q = 1 ∨ q = 2) := by
  cases n with
  | nan =>
    constructor
    · intro h
      exact absurd h (by norm_num [isValidBetAmount, validAmounts, sameValueZero, List.any])
    · rintro (h | ⟨q, h, -⟩) <;> cases h
  | negZero =>
    constructor
    · intro h
      exact Or.inl rfl
    · intro h
      norm_num [isValidBetAmount, validAmounts, sameValueZero, List.any]
  | num q =>
    constructor
    · intro h
      refine Or.inr ⟨q, rfl, ?_⟩
      simp only [isValidBetAmount, validAmounts, List.any_cons, List.any_nil,
        Bool.or_false, Bool.or_eq_true, sameValueZero, beq_iff_eq] at h
      rcases h with h | h | h | h | h
      · exact Or.inl h.symm
      · exact Or.inr (Or.inl h.symm)
      · exact Or.inr (Or.inr (Or.inl h.symm))
      · exact Or.inr (Or.inr (Or.inr (Or.inl h.symm)))
      · exact Or.inr (Or.inr (Or.inr (Or.inr h.symm)))
    · rintro (h | ⟨q2, hq, h⟩)
      · cases h
      · injection hq with hq
        subst hq
        simp only [isValidBetAmount, validAmounts, List.any_cons, List.any_nil,
          Bool.or_false, Bool.or_eq_true, sameValueZero, beq_iff_eq]
        rcases h with h | h | h | h | h
        · exact Or.inl h.symm
        · exact Or.inr (Or.inl h.symm)
        · exact Or.inr (Or.inr (Or.inl h.symm))
        · exact Or.inr (Or.inr (Or.inr (Or.inl h.symm)))
        · exact Or.inr (Or.inr (Or.inr (Or.inr h.symm)))

/-- C5: isValidBetAmount returns true exactly on number values strictly
equal (the exact === comparison, no tolerance) to one of 0, 0.01, 0.1, 1, 2;
in particular 0.1 is accepted, 0.15 is rejected, and the string "1" is
rejected. -/
theorem isValidBetAmount_spec :
    (∀ v, isValidBetAmount v = true ↔
      ∃ n, v = JSValue.num n ∧
        (strictEqNum n (JSNum.num 0) = true ∨ strictEqNum n (JSNum.num (1 / 100)) = true ∨
         strictEqNum n (JSNum.num (1 / 10)) = true ∨ strictEqNum n (JSNum.num 1) = true ∨
         strictEqNum n (JSNum.num 2) = true)) ∧
    isValidBetAmount (JSValue.num (JSNum.num (1 / 10))) = true ∧
    isValidBetAmount (JSValue.num (JSNum.num (15 / 100))) = false ∧
    isValidBetAmount (JSValue.str "1") = false := by
  refine ⟨?_, by norm_num [isValidBetAmount, validAmounts, sameValueZero, List.any],
    by norm_num [isValidBetAmount, validAmounts, sameValueZero, List.any], rfl⟩
  intro v
  cases v with
  | num n =>
    rw [isValidBetAmount_num_iff]
    constructor
    · rintro (rfl | ⟨q, rfl, hq⟩)
      · exact ⟨JSNum.negZero, rfl, Or.inl (by simp [strictEqNum])⟩
      · refine ⟨JSNum.num q, rfl, ?_⟩
        simp only [strictEqNum, beq_iff_eq]
        exact hq
    · rintro ⟨n2, hn, h⟩
      injection hn with hn
      subst hn
      cases n with
      | nan => rcases h with h | h | h | h | h <;> simp [strictEqNum] at h
      | negZero => exact Or.inl rfl
      | num q =>
        simp only [strictEqNum, beq_iff_eq] at h
        exact Or.inr ⟨q, rfl, h⟩
  | undef => simp [isValidBetAmount]
  | null => simp [isValidBetAmount]
  | bool b => simp [isValidBetAmount]
  | str s => simp [isValidBetAmount]
  | obj fields => simp [isValidBetAmount]

/-- Witness for C5: the bet amount 2 accepted through the characterization. -/
theorem isValidBetAmount_spec_witness :
    isValidBetAmount (JSValue.num (JSNum.num 2)) = true :=
  (isValidBetAmount_spec.1 _).mpr
    ⟨JSNum.num 2, rfl, Or.inr (Or.inr (Or.inr (Or.inr (by simp [strictEqNum]))))⟩

/-- C6: isValidDirection returns true exactly on the four string values
"UP", "DOWN", "LEFT", "RIGHT" (case-sensitively); "UP" is accepted while
"up" and "" are rejected. -/
theorem isValidDirection_spec :
    (∀ v, isValidDirection v = true ↔
      v = JSValue.str "UP" ∨ v = JSValue.str "DOWN" ∨
      v = JSValue.str "LEFT" ∨ v = JSValue.str "RIGHT") ∧
    isValidDirection (JSValue.str "UP") = true ∧
    isValidDirection (JSValue.str "up") = false ∧
    isValidDirection (JSValue.str "") = false := by
  refine ⟨?_, by decide, by decide, by decide⟩
  intro v
  cases v <;> simp [isValidDirection]

/-- Witness for C6: "LEFT" accepted through the characterization. -/
theorem isValidDirection_spec_witness :
    isValidDirection (JSValue.str "LEFT") = true :=
  (isValidDirection_spec.1 _).mpr (Or.inr (Or.inr (Or.inl rfl)))

/-- C10: isValidBetAmount rejects NaN (a number, but not a member of the
array under SameValueZero) and accepts negative zero (SameValueZero equates
-0 with 0), so the accepted numbers are exactly negative zero and the
rationals 0, 0.01, 0.1, 1, 2. -/
theorem isValidBetAmount_nan_negZero :
    isValidBetAmount (JSValue.num JSNum.nan) = false ∧
    isValidBetAmount (JSValue.num JSNum.negZero) = true ∧
    (∀ n : JSNum, isValidBetAmount (JSValue.num n) = true ↔
      (n = JSNum.negZero ∨ ∃ q : ℚ, n = JSNum.num q ∧
        (q = 0 ∨ q = 1 / 100 ∨ q = 1 / 10 ∨ q = 1 ∨ q = 2))) :=
  ⟨rfl, by norm_num [isValidBetAmount, validAmounts, sameValueZero, List.any],
    fun n => isValidBetAmount_num_iff n⟩

/-- Witness for C10: the amount 1 accepted through the characterization. -/
theorem isValidBetAmount_nan_negZero_witness :
    isValidBetAmount (JSValue.num (JSNum.num 1)) = true :=
  (isValidBetAmount_nan_negZero.2.2 _).mpr
    (Or.inr ⟨1, rfl, Or.inr (Or.inr (Or.inr (Or.inl rfl)))⟩)

/-- C7: every result of the two composite validators has the ValidationResult
shape: the error field is present exactly when success is false, every error
string is drawn from the fixed enumerated set, and the isCreating and
isJoining flags appear only on the two success branches of
validateJoinRoomPayload, never together, never on failure, and never from
validateDirectionPayload. -/
theorem validation_result_shape (p : JSValue) :
    ((validateJoinRoomPayload p).success = true ↔ (validateJoinRoomPayload p).error = none) ∧
    (∀ e, (validateJoinRoomPayload p).error = some e → e ∈ joinRoomErrors) ∧
    ((validateDirectionPayload p).success = true ↔ (validateDirectionPayload p).error = none) ∧
    (∀ e, (validateDirectionPayload p).error = some e → e ∈ directionErrors) ∧
    (validateDirectionPayload p).isCreating = none ∧
    (validateDirectionPayload p).isJoining = none ∧
    ((validateJoinRoomPayload p).success = false →
      (validateJoinRoomPayload p).isCreating = none ∧
        (validateJoinRoomPayload p).isJoining = none) ∧
    ((validateJoinRoomPayload p).success = true →
      ((validateJoinRoomPayload p).isCreating = some true ∧
        (validateJoinRoomPayload p).isJoining = none) ∨
      ((validateJoinRoomPayload p).isCreating = none ∧
        (validateJoinRoomPayload p).isJoining = some true)) := by
  unfold validateJoinRoomPayload validateDirectionPayload
  (repeat' split) <;> simp_all [joinRoomErrors, directionErrors]

/-- Witness for C7: the error reported for an undefined payload belongs to
the enumerated set. -/
theorem validation_result_shape_witness : "Invalid payload format" ∈ joinRoomErrors :=
  (validation_result_shape JSValue.undef).2.1 "Invalid payload format" rfl

/-- The logged variant of validateJoinRoomPayload returns exactly the pure
result, whatever the ambient log. -/
theorem validateJoinRoomPayloadLogged_fst (l : List LogEntry) (p : JSValue) :
    (validateJoinRoomPayloadLogged l p).1 = validateJoinRoomPayload p := by
  unfold validateJoinRoomPayloadLogged validateJoinRoomPayload
  (repeat' split) <;> simp_all

/-- C8: every validator is deterministic and idempotent in its result: the
logged composite validators return the pure result whatever the ambient log,
so a second call with the same input (after the first call's log lines were
appended) returns the same result, and the four predicate validators are
pure functions. -/
theorem validators_idempotent (p : JSValue) (l : List LogEntry) :
    (validateJoinRoomPayloadLogged l p).1 = validateJoinRoomPayload p ∧
    (validateJoinRoomPayloadLogged ((validateJoinRoomPayloadLogged l p).2) p).1 =
      (validateJoinRoomPayloadLogged l p).1 ∧
    (validateDirectionPayloadLogged l p).1 = validateDirectionPayload p ∧
    (validateDirectionPayloadLogged ((validateDirectionPayloadLogged l p).2) p).1 =
      (validateDirectionPayloadLogged l p).1 ∧
    isValidEthereumAddress p = isValidEthereumAddress p ∧
    isValidRoomId p = isValidRoomId p ∧
    isValidDirection p = isValidDirection p ∧
    isValidBetAmount p = isValidBetAmount p :=
  ⟨validateJoinRoomPayloadLogged_fst l p,
    by rw [validateJoinRoomPayloadLogged_fst, validateJoinRoomPayloadLogged_fst],
    rfl, rfl, rfl, rfl, rfl, rfl⟩

/-- A value accepted by isValidEthereumAddress is truthy (a nonempty
string). -/
theorem truthy_of_valid_address (v : JSValue) (h : isValidEthereumAddress v = true) :
    truthy v = true := by
  cases v with
  | str s =>
    obtain ⟨rest, hdata, -, -⟩ :=
      (ethAddrMatch_iff s.data).mp (by simpa [isValidEthereumAddress] using h)
    simp only [truthy, bne_iff_ne, ne_eq, decide_eq_true_eq]
    intro hs
    subst hs
    have h0 : ("" : String).data = [] := rfl
    rw [h0] at hdata
    exact List.noConfusion hdata
  | undef => simp [isValidEthereumAddress] at h
  | null => simp [isValidEthereumAddress] at h
  | bool b => simp [isValidEthereumAddress] at h
  | num n => simp [isValidEthereumAddress] at h
  | obj fields => simp [isValidEthereumAddress] at h

/-- C9 counterexample: a payload with a valid eoa and a null (falsy, present)
roomId need not fail with the room-id message: if it also carries an invalid
betAmount, validateJoinRoomPayload short-circuits earlier on the bet-amount
check, refuting the claim as universally stated. -/
theorem validateJoinRoomPayload_falsy_roomId_cex :
    isValidEthereumAddress
      (jsGet (JSValue.obj [("eoa", JSValue.str "0x0000000000000000000000000000000000000000"),
        ("betAmount", JSValue.str "x"), ("roomId", JSValue.null)]) "eoa") = true ∧
    jsGet (JSValue.obj [("eoa", JSValue.str "0x0000000000000000000000000000000000000000"),
        ("betAmount", JSValue.str "x"), ("roomId", JSValue.null)]) "roomId" = JSValue.null ∧
    validateJoinRoomPayload
      (JSValue.obj [("eoa", JSValue.str "0x0000000000000000000000000000000000000000"),
        ("betAmount", JSValue.str "x"), ("roomId", JSValue.null)]) =
      ⟨false, some "Invalid bet amount. Must be 0, 0.01, 0.1, 1, or 2", none, none⟩ ∧
    validateJoinRoomPayload
      (JSValue.obj [("eoa", JSValue.str "0x0000000000000000000000000000000000000000"),
        ("betAmount", JSValue.str "x"), ("roomId", JSValue.null)]) ≠
      ⟨false, some "Invalid room ID format", none, none⟩ :=
  ⟨by decide, rfl, by decide, by decide⟩

/-- C9 amended: for every payload with a valid eoa, a betAmount that is
absent or valid, and a roomId that is present but falsy (null or the empty
string), validateJoinRoomPayload takes the join branch and fails with
"Invalid room ID format"; such a payload is never treated as a creation
request. -/
theorem validateJoinRoomPayload_falsy_roomId (p : JSValue)
    (heoa : isValidEthereumAddress (jsGet p "eoa") = true)
    (hbet : isUndef (jsGet p "betAmount") = true ∨ isValidBetAmount (jsGet p "betAmount") = true)
    (hroom : jsGet p "roomId" = JSValue.null ∨ jsGet p "roomId" = JSValue.str "") :
    validateJoinRoomPayload p = ⟨false, some "Invalid room ID format", none, none⟩ := by
  have hobj : isObject p = true := by
    cases p <;> first | rfl | simp [jsGet, isValidEthereumAddress] at heoa
  have htr : truthy (jsGet p "eoa") = true := truthy_of_valid_address _ heoa
  have hundef : isUndef (jsGet p "roomId") = false := by
    rcases hroom with h | h <;> rw [h] <;> rfl
  have hinv : isValidRoomId (jsGet p "roomId") = false := by
    rcases hroom with h | h <;> rw [h] <;> rfl
  rcases hbet with hb | hb <;>
    simp [validateJoinRoomPayload, objectCheck_eq, hobj, htr, heoa, hb, hundef, hinv]

/-- Witness for C9: a concrete payload with a valid address and a null
roomId rejected with the room-id-format error. -/
theorem validateJoinRoomPayload_falsy_roomId_witness :
    validateJoinRoomPayload
      (JSValue.obj [("eoa", JSValue.str "0xffffffffffffffffffffffffffffffffffffffff"),
        ("roomId", JSValue.null)]) =
      ⟨false, some "Invalid room ID format", none, none⟩ :=
  validateJoinRoomPayload_falsy_roomId _ (by decide) (Or.inl rfl) (Or.inl rfl)

